import Mathlib

/-!
Shallow embedding of `src/pmm_volatility_trend_risk.py`, the
`PMMVolatilityTrendRisk` market-making strategy.  Python `Decimal`
arithmetic is modelled by exact rationals (`ℚ`): addition, subtraction,
multiplication, `min`/`max` and comparisons are exact in both, and the
few divisions the strategy performs are modelled exactly.
The class-level configuration constants are embedded with their literal
values from the source.
-/

/-- Candle sample; only the fields the strategy reads are embedded
(`high`, `low`, `close`, `volume`). -/
structure Candle where
  high : ℚ
  low : ℚ
  close : ℚ
  volume : ℚ
deriving DecidableEq

/-- Side of a trade, mirroring `TradeType.BUY` / `TradeType.SELL`. -/
inductive TradeType where
  | BUY
  | SELL
deriving DecidableEq

/-- One order proposal, mirroring the `OrderCandidate(trading_pair, True,
OrderType.LIMIT, side, amount, price)` constructor calls: only the side,
amount and price vary. -/
structure OrderCandidate where
  side : TradeType
  amount : ℚ
  price : ℚ
deriving DecidableEq

/-- The mutable per-instance state of `PMMVolatilityTrendRisk` that the
embedded methods read or write (set in `__init__` and `update_indicators`). -/
structure StrategyState where
  bid_spread : ℚ
  ask_spread : ℚ
  rsi : ℚ
  order_refresh_time : ℚ
  volume_spike_active : Bool
  manual_base_balance : ℚ
  manual_quote_balance : ℚ
  use_manual_balances : Bool
deriving DecidableEq

/-- Per-cycle external market inputs: the connector's reference price,
best bid / best ask, and the venue balances read when
`use_manual_balances` is off. -/
structure MarketData where
  ref_price : ℚ
  best_bid : ℚ
  best_ask : ℚ
  venue_base : ℚ
  venue_quote : ℚ
deriving DecidableEq

/-- `order_amount = Decimal("0.01")`. -/
def order_amount : ℚ := 1/100

/-- `base_refresh_time = 15`. -/
def base_refresh_time : ℚ := 15

/-- `candles_length = 30`. -/
def candles_length : ℕ := 30

/-- `bid_spread_scalar = Decimal("0.05")`. -/
def bid_spread_scalar : ℚ := 5/100

/-- `ask_spread_scalar = Decimal("0.05")`. -/
def ask_spread_scalar : ℚ := 5/100

/-- `inventory_risk_scalar = Decimal("0.3")`. -/
def inventory_risk_scalar : ℚ := 3/10

/-- `rsi_period = 14`. -/
def rsi_period : ℕ := 14

/-- `rsi_skew_scalar = Decimal("0.001")`. -/
def rsi_skew_scalar : ℚ := 1/1000

/-- `volatility_scalar = Decimal("30")`. -/
def volatility_scalar : ℚ := 30

/-- `volume_spike_multiplier = Decimal("2")`. -/
def volume_spike_multiplier : ℚ := 2

/-- The state as `__init__` leaves it: spreads `0.001`, rsi `50`,
refresh time `base_refresh_time`, no spike, manual balances `0`,
`use_manual_balances = True`. -/
def initial_state : StrategyState :=
  { bid_spread := 1/1000
    ask_spread := 1/1000
    rsi := 50
    order_refresh_time := base_refresh_time
    volume_spike_active := false
    manual_base_balance := 0
    manual_quote_balance := 0
    use_manual_balances := true }

/-! ## Indicator calculations (`update_indicators`, lines 83–100)

The strategy obtains NATR and RSI from the `pandas_ta` library, whose code
is not part of this repository.  The two indicator values are therefore
modelled from the spec (§4.2); the library's minimum-window requirement is
kept: `pandas_ta` returns no column at all when the window is shorter than
the requested length, which surfaces in the strategy as a failed lookup of
`latest["NATR_30"]`. -/

/-- Modelled from the spec: the true range of a candle given the previous
close, `max(high − low, |high − prev_close|, |low − prev_close|)`. -/
def true_range (prev_close : ℚ) (c : Candle) : ℚ :=
  max (c.high - c.low) (max |c.high - prev_close| |c.low - prev_close|)

/-- Modelled from the spec: the per-candle true ranges of a window, each
taken against the previous candle's close (seeded with `pc`). -/
def trList : ℚ → List Candle → List ℚ
  | _, [] => []
  | pc, c :: rest => true_range pc c :: trList c.close rest

/-- Close of the first candle of the window (0 on an empty window). -/
def headClose (w : List Candle) : ℚ := (w.head?.map Candle.close).getD 0

/-- Close of the last (most recent) candle of the window. -/
def lastClose (w : List Candle) : ℚ := (w.getLast?.map Candle.close).getD 0

/-- Volume of the last (most recent) candle, `latest['volume']`. -/
def latest_volume (w : List Candle) : ℚ := (w.getLast?.map Candle.volume).getD 0

/-- Modelled from the spec: normalized average true range — the true
ranges of the most recent `candles_length` candles averaged, divided by
the latest close.  The scalar is 1 as in the source's
`df.ta.natr(length=..., scalar=1)`. -/
def natrVal (w : List Candle) : ℚ :=
  ((trList (headClose w) w).drop (w.length - candles_length)).sum
    / (candles_length : ℚ) / lastClose w

/-- Consecutive close-to-close differences of the window. -/
def closeDiffs : List Candle → List ℚ
  | [] => []
  | [_] => []
  | a :: b :: rest => (b.close - a.close) :: closeDiffs (b :: rest)

/-- The most recent `rsi_period` close differences. -/
def rsi_diffs (w : List Candle) : List ℚ :=
  (closeDiffs w).drop ((closeDiffs w).length - rsi_period)

/-- Modelled from the spec: average upward price change over the lookback. -/
def avg_gain (w : List Candle) : ℚ :=
  ((rsi_diffs w).map (fun d => max d 0)).sum / (rsi_period : ℚ)

/-- Modelled from the spec: average downward price change (as a
non-negative magnitude) over the lookback. -/
def avg_loss (w : List Candle) : ℚ :=
  ((rsi_diffs w).map (fun d => max (-d) 0)).sum / (rsi_period : ℚ)

/-- Modelled from the spec: RSI-style momentum oscillator — ratio of
average upward to average downward change, saturating at 100 when
downward movement is absent and at 0 when upward movement is absent,
with no division in either degenerate branch. -/
def rsiVal (w : List Candle) : ℚ :=
  if avg_loss w = 0 then 100
  else if avg_gain w = 0 then 0
  else 100 * avg_gain w / (avg_gain w + avg_loss w)

/-- Modelled from the spec: `df.ta.natr(length=candles_length, scalar=1)` —
`pandas_ta` produces no value when the window is shorter than the
requested length. -/
def ta_natr (w : List Candle) : Option ℚ :=
  if w.length < candles_length then none else some (natrVal w)

/-- Modelled from the spec: `df.ta.rsi(length=rsi_period)` — `pandas_ta`
produces no value when the window is shorter than the requested length. -/
def ta_rsi (w : List Candle) : Option ℚ :=
  if w.length < rsi_period then none else some (rsiVal w)

/-- `df['volume'].iloc[-self.candles_length:].mean()`: the mean of the
volumes of the most recent `candles_length` candles (of all of them when
the window is shorter). -/
def avg_volume (w : List Candle) : ℚ :=
  ((w.map Candle.volume).drop (w.length - candles_length)).sum
    / (((w.map Candle.volume).drop (w.length - candles_length)).length : ℚ)

/-- Line 97: `base_refresh_time / (1 + volatility_scalar * natr)`.
The source converts the result to `float`; the value is modelled
exactly. -/
def adaptive_refresh_time (natr : ℚ) : ℚ :=
  base_refresh_time / (1 + volatility_scalar * natr)

/-- `update_indicators` (lines 83–100).  An empty window returns with the
state unchanged (line 85–86).  Otherwise the NATR and RSI columns are
looked up on the latest row: when the window is shorter than the
indicator length the column does not exist and the method raises
(modelled as `Except.error ()`); otherwise the five indicator fields are
assigned from the latest row. -/
def update_indicators (s : StrategyState) (w : List Candle) :
    Except Unit StrategyState :=
  if w.isEmpty then Except.ok s
  else
    match ta_natr w, ta_rsi w with
    | some natr, some rsi =>
        Except.ok { s with
          bid_spread := natr * bid_spread_scalar
          ask_spread := natr * ask_spread_scalar
          rsi := rsi
          order_refresh_time := adaptive_refresh_time natr
          volume_spike_active :=
            decide (latest_volume w > volume_spike_multiplier * avg_volume w) }
    | _, _ => Except.error ()

/-! ## Quote construction (`create_proposal`, lines 102–144) -/

/-- Line 113: `total_value = base * ref_price + quote`. -/
def total_value (base quote ref_price : ℚ) : ℚ := base * ref_price + quote

/-- Line 114: `base_ratio = (base * ref_price / total_value) if
total_value > 0 else Decimal("0.5")`. -/
def base_ratio (base quote ref_price : ℚ) : ℚ :=
  if 0 < total_value base quote ref_price then
    base * ref_price / total_value base quote ref_price
  else 1/2

/-- Balances used by the cycle: the manual pair in manual-balance mode,
the venue balances otherwise (lines 106–111). -/
def cycle_base (s : StrategyState) (m : MarketData) : ℚ :=
  if s.use_manual_balances then s.manual_base_balance else m.venue_base

/-- Quote-side balance used by the cycle (lines 106–111). -/
def cycle_quote (s : StrategyState) (m : MarketData) : ℚ :=
  if s.use_manual_balances then s.manual_quote_balance else m.venue_quote

/-- Lines 113–123: the inventory- and momentum-skewed mid-price
`mid_price = ref_price + inventory_skew + rsi_skew`. -/
def adjusted_mid (s : StrategyState) (m : MarketData) : ℚ :=
  let base := cycle_base s m
  let quote := cycle_quote s m
  let inventory_skew :=
    (1/2 - base_ratio base quote m.ref_price) * inventory_risk_scalar * m.ref_price
  let rsi_skew :=
    if 70 < s.rsi then rsi_skew_scalar * m.ref_price
    else if s.rsi < 30 then -(rsi_skew_scalar * m.ref_price)
    else 0
  m.ref_price + inventory_skew + rsi_skew

/-- Line 133 before the clamp: `mid_price * (1 - bid_spread)`. -/
def raw_buy (s : StrategyState) (m : MarketData) : ℚ :=
  adjusted_mid s m * (1 - s.bid_spread)

/-- Line 134 before the clamp: `mid_price * (1 + ask_spread)`. -/
def raw_sell (s : StrategyState) (m : MarketData) : ℚ :=
  adjusted_mid s m * (1 + s.ask_spread)

/-- Line 133: `buy_price = min(mid_price * (1 - bid_spread), best_bid)`. -/
def clamped_buy (s : StrategyState) (m : MarketData) : ℚ :=
  min (raw_buy s m) m.best_bid

/-- Line 134: `sell_price = max(mid_price * (1 + ask_spread), best_ask)`. -/
def clamped_sell (s : StrategyState) (m : MarketData) : ℚ :=
  max (raw_sell s m) m.best_ask

/-- Lines 133–138: the final (buy_price, sell_price) pair — after the
book clamp, a volume spike multiplies the buy by `1.002` and the sell by
`0.998`. -/
def quote_prices (s : StrategyState) (m : MarketData) : ℚ × ℚ :=
  if s.volume_spike_active then
    (clamped_buy s m * (1002/1000), clamped_sell s m * (998/1000))
  else
    (clamped_buy s m, clamped_sell s m)

/-- Lines 141–144: the emitted proposal, a BUY and a SELL order
candidate at the computed prices. -/
def create_proposal (s : StrategyState) (m : MarketData) : List OrderCandidate :=
  [ { side := TradeType.BUY, amount := order_amount, price := (quote_prices s m).1 }
  , { side := TradeType.SELL, amount := order_amount, price := (quote_prices s m).2 } ]

/-! ## Fill handling (`did_fill_order`, lines 163–174) -/

/-- `did_fill_order`: in manual-balance mode a BUY fill adds `amount` to
the base balance and subtracts `amount * price` from the quote balance,
a SELL fill does the inverse; outside manual-balance mode the method
only logs and the state is unchanged. -/
def did_fill_order (s : StrategyState) (side : TradeType) (amount price : ℚ) :
    StrategyState :=
  if s.use_manual_balances then
    match side with
    | TradeType.BUY =>
        { s with
          manual_base_balance := s.manual_base_balance + amount
          manual_quote_balance := s.manual_quote_balance - amount * price }
    | TradeType.SELL =>
        { s with
          manual_base_balance := s.manual_base_balance - amount
          manual_quote_balance := s.manual_quote_balance + amount * price }
  else s

/-! ## Helper lemmas -/

theorem true_range_nonneg (pc : ℚ) (c : Candle) : 0 ≤ true_range pc c :=
  le_trans (abs_nonneg _) (le_trans (le_max_left _ _) (le_max_right _ _))

theorem trList_nonneg (pc : ℚ) (w : List Candle) : ∀ x ∈ trList pc w, 0 ≤ x := by
  induction w generalizing pc with
  | nil => intro x hx; simp [trList] at hx
  | cons c rest ih =>
      intro x hx
      simp only [trList, List.mem_cons] at hx
      rcases hx with h | h
      · exact h ▸ true_range_nonneg pc c
      · exact ih c.close x h

theorem natrVal_nonneg (w : List Candle) (h : 0 ≤ lastClose w) : 0 ≤ natrVal w := by
  unfold natrVal
  refine div_nonneg (div_nonneg ?_ (by norm_num [candles_length])) h
  exact List.sum_nonneg fun x hx => trList_nonneg _ _ x (List.mem_of_mem_drop hx)

theorem avg_gain_nonneg (w : List Candle) : 0 ≤ avg_gain w := by
  unfold avg_gain
  refine div_nonneg (List.sum_nonneg ?_) (by norm_num [rsi_period])
  intro x hx
  rcases List.mem_map.mp hx with ⟨d, _, rfl⟩
  exact le_max_right d 0

theorem avg_loss_nonneg (w : List Candle) : 0 ≤ avg_loss w := by
  unfold avg_loss
  refine div_nonneg (List.sum_nonneg ?_) (by norm_num [rsi_period])
  intro x hx
  rcases List.mem_map.mp hx with ⟨d, _, rfl⟩
  exact le_max_right (-d) 0

theorem rsiVal_bounds (w : List Candle) : 0 ≤ rsiVal w ∧ rsiVal w ≤ 100 := by
  unfold rsiVal
  split_ifs with h1 h2
  · norm_num
  · norm_num
  · have hg := avg_gain_nonneg w
    have hl := avg_loss_nonneg w
    have hg' : 0 < avg_gain w := lt_of_le_of_ne hg (Ne.symm h2)
    have hl' : 0 < avg_loss w := lt_of_le_of_ne hl (Ne.symm h1)
    constructor
    · positivity
    · rw [div_le_iff₀ (by linarith)]
      nlinarith

/-! ## Claims -/

/-- C5: whenever `total_value = base * ref_price + quote ≤ 0` the quote
computation sets `base_ratio` to exactly `1/2` with no division, and
otherwise `base_ratio = base * ref_price / total_value`. -/
theorem C5_base_ratio_guard (base quote ref_price : ℚ) :
    (total_value base quote ref_price ≤ 0 → base_ratio base quote ref_price = 1/2) ∧
    (0 < total_value base quote ref_price →
      base_ratio base quote ref_price
        = base * ref_price / total_value base quote ref_price) := by
  constructor
  · intro h
    rw [base_ratio, if_neg (not_lt.mpr h)]
  · intro h
    rw [base_ratio, if_pos h]

/-- Witness for C5 at the cold portfolio `base = 0`, `quote = 0`,
`ref_price = 100`. -/
theorem C5_base_ratio_guard_witness :
    total_value 0 0 100 ≤ 0 ∧ base_ratio 0 0 100 = 1/2 :=
  ⟨by norm_num [total_value], (C5_base_ratio_guard 0 0 100).1 (by norm_num [total_value])⟩

/-- C6: in manual-balance mode a BUY fill of `amount` at `price` adds
`amount` to the base balance and subtracts `amount * price` from the
quote balance, and a SELL fill does the exact inverse. -/
theorem C6_fill_updates_exact (s : StrategyState) (amount price : ℚ)
    (h : s.use_manual_balances = true) :
    (did_fill_order s TradeType.BUY amount price).manual_base_balance
      = s.manual_base_balance + amount ∧
    (did_fill_order s TradeType.BUY amount price).manual_quote_balance
      = s.manual_quote_balance - amount * price ∧
    (did_fill_order s TradeType.SELL amount price).manual_base_balance
      = s.manual_base_balance - amount ∧
    (did_fill_order s TradeType.SELL amount price).manual_quote_balance
      = s.manual_quote_balance + amount * price := by
  simp [did_fill_order, h]

/-- Witness for C6: the spec's concrete chain — a BUY fill of 1 at 100 on
`{base = 0, quote = 1000}` yields `{1, 900}`, then a SELL fill of 1 at
110 yields `{0, 1010}`. -/
theorem C6_fill_updates_exact_witness :
    (did_fill_order { initial_state with manual_quote_balance := 1000 }
        TradeType.BUY 1 100).manual_base_balance = 1 ∧
    (did_fill_order { initial_state with manual_quote_balance := 1000 }
        TradeType.BUY 1 100).manual_quote_balance = 900 ∧
    (did_fill_order (did_fill_order { initial_state with manual_quote_balance := 1000 }
        TradeType.BUY 1 100) TradeType.SELL 1 110).manual_base_balance = 0 ∧
    (did_fill_order (did_fill_order { initial_state with manual_quote_balance := 1000 }
        TradeType.BUY 1 100) TradeType.SELL 1 110).manual_quote_balance = 1010 := by
  have h1 := C6_fill_updates_exact
    { initial_state with manual_quote_balance := 1000 } 1 100 rfl
  have h2 := C6_fill_updates_exact
    (did_fill_order { initial_state with manual_quote_balance := 1000 }
      TradeType.BUY 1 100) 1 110 (by simp [did_fill_order, initial_state])
  refine ⟨?_, ?_, ?_, ?_⟩
  · rw [h1.1]; norm_num [initial_state]
  · rw [h1.2.1]; norm_num [initial_state]
  · rw [h2.2.2.1, h1.1]; norm_num [initial_state]
  · rw [h2.2.2.2, h1.2.1]; norm_num [initial_state]

/-- C10: outside manual-balance mode, a fill event leaves the strategy
state — in particular the tracked manual balances — entirely unchanged. -/
theorem C10_fill_noop_without_manual (s : StrategyState) (side : TradeType)
    (amount price : ℚ) (h : s.use_manual_balances = false) :
    did_fill_order s side amount price = s := by
  cases side <;> simp [did_fill_order, h]

/-- Witness for C10 at a concrete state and fill. -/
theorem C10_fill_noop_without_manual_witness :
    ({ initial_state with use_manual_balances := false } : StrategyState).use_manual_balances
      = false ∧
    did_fill_order { initial_state with use_manual_balances := false }
      TradeType.BUY 2 50 = { initial_state with use_manual_balances := false } :=
  ⟨rfl, C10_fill_noop_without_manual _ TradeType.BUY 2 50 rfl⟩

/-- C7 counterexample: the claim as stated is false — a BUY fill of
amount 1 at price 100 (both positive) applied to the non-negative
initial inventory `{base = 0, quote = 0}` drives the quote balance to
−100. -/
theorem C7_negative_balance_counterexample :
    0 ≤ initial_state.manual_base_balance ∧
    0 ≤ initial_state.manual_quote_balance ∧
    (did_fill_order initial_state TradeType.BUY 1 100).manual_quote_balance < 0 := by
  refine ⟨?_, ?_, ?_⟩ <;> norm_num [did_fill_order, initial_state]

/-- C7 amended: balances stay non-negative provided the fill is covered
by the held balance — a BUY fill spends at most the quote balance, a
SELL fill sells at most the base balance. -/
theorem C7_balances_nonneg_when_covered (s : StrategyState) (side : TradeType)
    (amount price : ℚ) (ha : 0 < amount) (hp : 0 < price)
    (hb : 0 ≤ s.manual_base_balance) (hq : 0 ≤ s.manual_quote_balance)
    (hbuy : side = TradeType.BUY → amount * price ≤ s.manual_quote_balance)
    (hsell : side = TradeType.SELL → amount ≤ s.manual_base_balance) :
    0 ≤ (did_fill_order s side amount price).manual_base_balance ∧
    0 ≤ (did_fill_order s side amount price).manual_quote_balance := by
  cases hm : s.use_manual_balances
  · simp only [did_fill_order, hm, Bool.false_eq_true, if_false]
    exact ⟨hb, hq⟩
  · cases side
    · have hc := hbuy rfl
      simp only [did_fill_order, hm, if_true]
      exact ⟨by linarith, by linarith⟩
    · have hc := hsell rfl
      have hap : 0 ≤ amount * price := by positivity
      simp only [did_fill_order, hm, if_true]
      exact ⟨by linarith, by linarith⟩

/-- Witness for C7 (amended) at a covered BUY fill. -/
theorem C7_balances_nonneg_when_covered_witness :
    (0:ℚ) < 1 ∧ (0:ℚ) < 100 ∧
    0 ≤ (did_fill_order { initial_state with manual_quote_balance := 1000 }
          TradeType.BUY 1 100).manual_base_balance ∧
    0 ≤ (did_fill_order { initial_state with manual_quote_balance := 1000 }
          TradeType.BUY 1 100).manual_quote_balance :=
  ⟨by norm_num, by norm_num,
    C7_balances_nonneg_when_covered _ TradeType.BUY 1 100 (by norm_num) (by norm_num)
      (by norm_num [initial_state]) (by norm_num [initial_state])
      (fun _ => by norm_num [initial_state]) (fun h => by cases h)⟩

/-- C2 counterexample: with the volume-spike flag set, the submitted buy
price exceeds the current best bid — the spike tightening is applied
after the book clamp (buy 99.9 clamped at best bid 100, then ×1.002 =
100.0998 > 100). -/
theorem C2_spike_breaks_clamp_counterexample :
    (MarketData.best_bid ⟨100, 100, 1001/10, 0, 0⟩) <
      (quote_prices { initial_state with volume_spike_active := true }
        ⟨100, 100, 1001/10, 0, 0⟩).1 := by
  norm_num [quote_prices, clamped_buy, clamped_sell, raw_buy, raw_sell, adjusted_mid,
    base_ratio, total_value, cycle_base, cycle_quote, initial_state,
    inventory_risk_scalar, rsi_skew_scalar]

/-- C2 amended: in every cycle in which the volume-spike flag is false,
the emitted buy price is at most the current best bid and the emitted
sell price is at least the current best ask. -/
theorem C2_clamp_respects_book (s : StrategyState) (m : MarketData)
    (h : s.volume_spike_active = false) :
    (quote_prices s m).1 ≤ m.best_bid ∧ m.best_ask ≤ (quote_prices s m).2 := by
  simp only [quote_prices, h, Bool.false_eq_true, if_false]
  exact ⟨min_le_right _ _, le_max_right _ _⟩

/-- Witness for C2 (amended) at the initial state and a concrete book. -/
theorem C2_clamp_respects_book_witness :
    initial_state.volume_spike_active = false ∧
    ((quote_prices initial_state ⟨100, 100, 1001/10, 0, 0⟩).1
        ≤ (MarketData.best_bid ⟨100, 100, 1001/10, 0, 0⟩) ∧
      (MarketData.best_ask ⟨100, 100, 1001/10, 0, 0⟩)
        ≤ (quote_prices initial_state ⟨100, 100, 1001/10, 0, 0⟩).2) :=
  ⟨rfl, C2_clamp_respects_book initial_state ⟨100, 100, 1001/10, 0, 0⟩ rfl⟩

/-- C3 counterexample: the code applies no floor to the adaptive
interval — at volatility 1 the interval is 15/31 < 1 (the spec's example
floor of one time unit). -/
theorem C3_no_floor_counterexample : adaptive_refresh_time 1 < 1 := by
  norm_num [adaptive_refresh_time, base_refresh_time, volatility_scalar]

/-- C3 amended: the adaptive re-quote interval equals
`base_refresh_time / (1 + volatility_scalar * volatility)`, is
monotonically non-increasing as volatility increases, and is strictly
positive for every volatility reading ≥ 0 — but no positive floor is
applied. -/
theorem C3_adaptive_interval (v1 v2 : ℚ) (h0 : 0 ≤ v1) (h12 : v1 ≤ v2) :
    adaptive_refresh_time v1 = base_refresh_time / (1 + volatility_scalar * v1) ∧
    adaptive_refresh_time v2 ≤ adaptive_refresh_time v1 ∧
    0 < adaptive_refresh_time v1 := by
  have d1 : (0:ℚ) < 1 + volatility_scalar * v1 := by
    norm_num [volatility_scalar]; linarith
  have d2 : (0:ℚ) < 1 + volatility_scalar * v2 := by
    norm_num [volatility_scalar]; linarith
  refine ⟨rfl, ?_, ?_⟩
  · unfold adaptive_refresh_time
    apply div_le_div_of_nonneg_left (by norm_num [base_refresh_time]) d1
    norm_num [volatility_scalar] at d1 d2 ⊢
    linarith
  · exact div_pos (by norm_num [base_refresh_time]) d1

/-- Witness for C3 (amended) at volatilities 0 and 1. -/
theorem C3_adaptive_interval_witness :
    (0:ℚ) ≤ 0 ∧ (0:ℚ) ≤ 1 ∧
    (adaptive_refresh_time 0 = base_refresh_time / (1 + volatility_scalar * 0) ∧
      adaptive_refresh_time 1 ≤ adaptive_refresh_time 0 ∧
      0 < adaptive_refresh_time 0) :=
  ⟨le_refl 0, by norm_num, C3_adaptive_interval 0 1 (le_refl 0) (by norm_num)⟩

/-- C1: the builder never checks for a crossed pair.  With the
volume-spike flag set, a mid-price of 100, spreads of 0.001 and book
100 / 100.1, the cycle emits BUY at 100.0998 and SELL at 99.8998 — a
crossed pair, submitted with no degenerate-quote signal. -/
theorem C1_crossed_pair_submitted :
    (create_proposal { initial_state with volume_spike_active := true }
        ⟨100, 100, 1001/10, 0, 0⟩).map OrderCandidate.price
      = [500499/5000, 499499/5000] ∧
    (499499 : ℚ)/5000 < 500499/5000 := by
  constructor
  · norm_num [create_proposal, quote_prices, clamped_buy, clamped_sell, raw_buy,
      raw_sell, adjusted_mid, base_ratio, total_value, cycle_base, cycle_quote,
      initial_state, inventory_risk_scalar, rsi_skew_scalar]
  · norm_num

/-- C4: a non-empty window shorter than the indicator lookback is not
skipped — the empty-window guard does not cover it, the indicator column
lookup fails, and the previous snapshot is not retained. -/
theorem C4_short_window_error :
    update_indicators initial_state [⟨100, 100, 100, 1⟩] = Except.error () := rfl

theorem true_range_self (c : Candle) (hh : c.high = c.close) (hl : c.low = c.close) :
    true_range c.close c = 0 := by
  rw [true_range, hh, hl]
  simp

theorem trList_flat (c : Candle) (hh : c.high = c.close) (hl : c.low = c.close) :
    ∀ n : ℕ, trList c.close (List.replicate n c) = List.replicate n 0 := by
  intro n
  induction n with
  | zero => rfl
  | succ k ih =>
      rw [List.replicate_succ]
      simp only [trList]
      rw [true_range_self c hh hl, ih, List.replicate_succ]

theorem closeDiffs_replicate (c : Candle) :
    ∀ n : ℕ, closeDiffs (List.replicate n c) = List.replicate (n - 1) 0 := by
  intro n
  induction n with
  | zero => rfl
  | succ k ih =>
      cases k with
      | zero => rfl
      | succ j =>
          rw [List.replicate_succ, List.replicate_succ]
          simp only [closeDiffs]
          rw [← List.replicate_succ, ih]
          simp [List.replicate_succ]

theorem headClose_replicate (c : Candle) (n : ℕ) (hn : n ≠ 0) :
    headClose (List.replicate n c) = c.close := by
  obtain ⟨m, rfl⟩ := Nat.exists_eq_succ_of_ne_zero hn
  simp [headClose, List.replicate_succ]

theorem lastClose_replicate (c : Candle) (n : ℕ) (hn : n ≠ 0) :
    lastClose (List.replicate n c) = c.close := by
  simp [lastClose, List.getLast?_replicate, hn]

theorem latest_volume_replicate (c : Candle) (n : ℕ) (hn : n ≠ 0) :
    latest_volume (List.replicate n c) = c.volume := by
  simp [latest_volume, List.getLast?_replicate, hn]

theorem natrVal_flat (c : Candle) (hh : c.high = c.close) (hl : c.low = c.close) :
    ∀ n : ℕ, natrVal (List.replicate n c) = 0 := by
  intro n
  cases n with
  | zero => norm_num [natrVal, headClose, lastClose, trList]
  | succ k =>
      unfold natrVal
      rw [headClose_replicate c (k+1) (Nat.succ_ne_zero k), trList_flat c hh hl,
        List.drop_replicate, List.sum_replicate, smul_zero, zero_div, zero_div]

theorem avg_loss_flat (c : Candle) (n : ℕ) : avg_loss (List.replicate n c) = 0 := by
  unfold avg_loss rsi_diffs
  rw [closeDiffs_replicate, List.drop_replicate, List.map_replicate]
  simp

theorem rsiVal_flat (c : Candle) (n : ℕ) : rsiVal (List.replicate n c) = 100 := by
  unfold rsiVal
  rw [if_pos (avg_loss_flat c n)]

theorem avg_volume_replicate (c : Candle) (n : ℕ) (hn : n ≠ 0) :
    avg_volume (List.replicate n c) = c.volume := by
  unfold avg_volume
  rw [List.map_replicate, List.length_replicate, List.drop_replicate,
    List.sum_replicate, List.length_replicate, nsmul_eq_mul]
  have hk : n - (n - candles_length) ≠ 0 := by
    norm_num [candles_length]
    omega
  exact mul_div_cancel_left₀ c.volume (by exact_mod_cast hk)

/-- C8: for windows at least as long as the lookback, the indicator
computation produces its values (no skipped column), momentum lies in
[0, 100] and saturates — 100 when downward movement is absent, 0 when
upward movement is absent but downward is present, with no division in
either branch — and volatility is non-negative when the latest close is
positive. -/
theorem C8_indicator_bounds (w : List Candle) (hw : candles_length ≤ w.length)
    (hc : 0 < lastClose w) :
    ta_natr w = some (natrVal w) ∧ ta_rsi w = some (rsiVal w) ∧
    (0 ≤ rsiVal w ∧ rsiVal w ≤ 100) ∧ 0 ≤ natrVal w ∧
    (avg_loss w = 0 → rsiVal w = 100) ∧
    (avg_gain w = 0 → avg_loss w ≠ 0 → rsiVal w = 0) := by
  refine ⟨?_, ?_, rsiVal_bounds w, natrVal_nonneg w hc.le, ?_, ?_⟩
  · unfold ta_natr
    rw [if_neg (Nat.not_lt.mpr hw)]
  · unfold ta_rsi
    have h14 : rsi_period ≤ w.length :=
      le_trans (by norm_num [rsi_period, candles_length]) hw
    rw [if_neg (Nat.not_lt.mpr h14)]
  · intro h
    unfold rsiVal
    rw [if_pos h]
  · intro hg hlz
    unfold rsiVal
    rw [if_neg hlz, if_pos hg]

/-- Witness for C8 at a window of 30 identical candles with close 100. -/
theorem C8_indicator_bounds_witness :
    candles_length ≤ (List.replicate 30 (⟨100, 100, 100, 1⟩ : Candle)).length ∧
    0 < lastClose (List.replicate 30 (⟨100, 100, 100, 1⟩ : Candle)) ∧
    (ta_natr (List.replicate 30 (⟨100, 100, 100, 1⟩ : Candle))
        = some (natrVal (List.replicate 30 (⟨100, 100, 100, 1⟩ : Candle))) ∧
      ta_rsi (List.replicate 30 (⟨100, 100, 100, 1⟩ : Candle))
        = some (rsiVal (List.replicate 30 (⟨100, 100, 100, 1⟩ : Candle))) ∧
      (0 ≤ rsiVal (List.replicate 30 (⟨100, 100, 100, 1⟩ : Candle)) ∧
        rsiVal (List.replicate 30 (⟨100, 100, 100, 1⟩ : Candle)) ≤ 100) ∧
      0 ≤ natrVal (List.replicate 30 (⟨100, 100, 100, 1⟩ : Candle)) ∧
      (avg_loss (List.replicate 30 (⟨100, 100, 100, 1⟩ : Candle)) = 0 →
        rsiVal (List.replicate 30 (⟨100, 100, 100, 1⟩ : Candle)) = 100) ∧
      (avg_gain (List.replicate 30 (⟨100, 100, 100, 1⟩ : Candle)) = 0 →
        avg_loss (List.replicate 30 (⟨100, 100, 100, 1⟩ : Candle)) ≠ 0 →
        rsiVal (List.replicate 30 (⟨100, 100, 100, 1⟩ : Candle)) = 0)) := by
  have h1 : candles_length ≤ (List.replicate 30 (⟨100, 100, 100, 1⟩ : Candle)).length := by
    simp [candles_length]
  have h2 : 0 < lastClose (List.replicate 30 (⟨100, 100, 100, 1⟩ : Candle)) := by
    rw [lastClose_replicate _ 30 (by norm_num)]
    norm_num
  exact ⟨h1, h2, C8_indicator_bounds _ h1 h2⟩

/-- A 30-candle window whose closes are all 100 but whose first candle
spans high 110 / low 90: flat closes, non-zero true range. -/
def wMixed : List Candle :=
  ⟨110, 90, 100, 1⟩ :: List.replicate 29 ⟨100, 100, 100, 1⟩

/-- C9 counterexample: flat closes alone do not give zero volatility —
on `wMixed` every close equals 100 and the window has the full lookback
length, yet the computed normalized average true range is 1/150 ≠ 0, so
the spreads of that cycle are not zero. -/
theorem C9_flat_closes_counterexample :
    (∀ c ∈ wMixed, c.close = 100) ∧ wMixed.length = candles_length ∧
    natrVal wMixed ≠ 0 := by
  refine ⟨?_, ?_, ?_⟩
  · intro c hc
    rcases List.mem_cons.mp hc with h | h
    · rw [h]
    · rw [List.eq_of_mem_replicate h]
  · simp [wMixed, candles_length]
  · have h1 : trList (headClose wMixed) wMixed
        = true_range 100 ⟨110, 90, 100, 1⟩
          :: trList 100 (List.replicate 29 ⟨100, 100, 100, 1⟩) := rfl
    have hflat : trList 100 (List.replicate 29 (⟨100, 100, 100, 1⟩ : Candle))
        = List.replicate 29 0 := trList_flat ⟨100, 100, 100, 1⟩ rfl rfl 29
    have htr20 : true_range 100 (⟨110, 90, 100, 1⟩ : Candle) = 20 := by
      norm_num [true_range]
    have htr : trList (headClose wMixed) wMixed = 20 :: List.replicate 29 0 := by
      rw [h1, hflat, htr20]
    have hlen : wMixed.length = 30 := by simp [wMixed]
    have hlast : lastClose wMixed = 100 := rfl
    unfold natrVal
    rw [htr, hlen, hlast]
    norm_num [candles_length]

/-- The state `update_indicators` produces from a fully flat window: zero
spreads, momentum saturated at 100, refresh time back at the base, no
volume spike. -/
def flat_updated (s : StrategyState) : StrategyState :=
  { s with
    bid_spread := 0
    ask_spread := 0
    rsi := 100
    order_refresh_time := base_refresh_time
    volume_spike_active := false }

/-- C9 amended: for a window of at least the lookback length consisting
of fully flat candles (high = low = close, non-negative volume), the
indicator refresh yields zero volatility, hence zero bid and ask spreads
and no volume spike; if additionally the cycle's adjusted mid-price lies
between best bid and best ask, the emitted prices equal best bid and
best ask exactly. -/
theorem C9_flat_window_quotes (s : StrategyState) (m : MarketData) (c : Candle)
    (n : ℕ) (hn : candles_length ≤ n) (hh : c.high = c.close)
    (hl : c.low = c.close) (hv : 0 ≤ c.volume)
    (hbb : m.best_bid ≤ adjusted_mid (flat_updated s) m)
    (hba : adjusted_mid (flat_updated s) m ≤ m.best_ask) :
    update_indicators s (List.replicate n c) = Except.ok (flat_updated s) ∧
    quote_prices (flat_updated s) m = (m.best_bid, m.best_ask) := by
  have hn0 : n ≠ 0 := by
    have h30 : (0:ℕ) < candles_length := by norm_num [candles_length]
    omega
  constructor
  · have h1 : ta_natr (List.replicate n c) = some 0 := by
      unfold ta_natr
      rw [if_neg (show ¬((List.replicate n c).length < candles_length) by
            simp only [List.length_replicate]
            exact Nat.not_lt.mpr hn),
        natrVal_flat c hh hl n]
    have h2 : ta_rsi (List.replicate n c) = some 100 := by
      unfold ta_rsi
      rw [if_neg (show ¬((List.replicate n c).length < rsi_period) by
            simp only [List.length_replicate]
            refine Nat.not_lt.mpr (le_trans ?_ hn)
            norm_num [rsi_period, candles_length]),
        rsiVal_flat c n]
    have hspike : decide (latest_volume (List.replicate n c)
        > volume_spike_multiplier * avg_volume (List.replicate n c)) = false := by
      rw [latest_volume_replicate c n hn0, avg_volume_replicate c n hn0]
      apply decide_eq_false
      norm_num [volume_spike_multiplier]
      linarith
    have hne : (List.replicate n c).isEmpty = false := by
      simp [List.isEmpty_iff, hn0]
    unfold update_indicators
    rw [hne]
    simp only [Bool.false_eq_true, if_false, h1, h2, hspike]
    unfold flat_updated adaptive_refresh_time
    norm_num [base_refresh_time, volatility_scalar]
  · unfold quote_prices
    have hsp : (flat_updated s).volume_spike_active = false := rfl
    rw [hsp]
    simp only [Bool.false_eq_true, if_false]
    unfold clamped_buy clamped_sell raw_buy raw_sell
    have hb0 : (flat_updated s).bid_spread = 0 := rfl
    have ha0 : (flat_updated s).ask_spread = 0 := rfl
    rw [hb0, ha0, sub_zero, mul_one, add_zero, mul_one,
      min_eq_right hbb, max_eq_right hba]

/-- Witness for C9 (amended): 30 flat candles at close 100, manual
balances empty (inventory skew 0), momentum saturated at 100 gives a
skew of +0.1, so the adjusted mid 100.1 lies inside the book
[100, 101]; the emitted prices are exactly best bid 100 and best ask
101. -/
theorem C9_flat_window_quotes_witness :
    candles_length ≤ 30 ∧ (0:ℚ) ≤ 5 ∧
    (MarketData.best_bid ⟨100, 100, 101, 0, 0⟩
        ≤ adjusted_mid (flat_updated initial_state) ⟨100, 100, 101, 0, 0⟩ ∧
      adjusted_mid (flat_updated initial_state) ⟨100, 100, 101, 0, 0⟩
        ≤ MarketData.best_ask ⟨100, 100, 101, 0, 0⟩) ∧
    (update_indicators initial_state (List.replicate 30 ⟨100, 100, 100, 5⟩)
        = Except.ok (flat_updated initial_state) ∧
      quote_prices (flat_updated initial_state) ⟨100, 100, 101, 0, 0⟩
        = (MarketData.best_bid ⟨100, 100, 101, 0, 0⟩,
           MarketData.best_ask ⟨100, 100, 101, 0, 0⟩)) := by
  have hmid : adjusted_mid (flat_updated initial_state) ⟨100, 100, 101, 0, 0⟩
      = 1001/10 := by
    norm_num [adjusted_mid, flat_updated, initial_state, base_ratio, total_value,
      cycle_base, cycle_quote, inventory_risk_scalar, rsi_skew_scalar]
  have hbb : MarketData.best_bid ⟨100, 100, 101, 0, 0⟩
      ≤ adjusted_mid (flat_updated initial_state) ⟨100, 100, 101, 0, 0⟩ := by
    rw [hmid]; norm_num
  have hba : adjusted_mid (flat_updated initial_state) ⟨100, 100, 101, 0, 0⟩
      ≤ MarketData.best_ask ⟨100, 100, 101, 0, 0⟩ := by
    rw [hmid]; norm_num
  exact ⟨by norm_num [candles_length], by norm_num, ⟨hbb, hba⟩,
    C9_flat_window_quotes initial_state ⟨100, 100, 101, 0, 0⟩ ⟨100, 100, 100, 5⟩ 30
      (by norm_num [candles_length]) rfl rfl (by norm_num) hbb hba⟩
